import Mathlib

/-!
Verification development for the `electron-shortcuts` library
(src/main.ts, src/cache.ts): a three-scope keyboard-shortcut registry
(local to one window, on all windows, OS-global) over an accelerator
parser/normalizer and a key-event matcher.

The registry, orchestrator and matcher logic are embedded from
`src/main.ts` and `src/cache.ts`.  The helper modules `utils.ts`
(split, normalizeModifiers, normalizeNonModifier,
normalizedModifierToInputProperty), `input.ts` (inputProperties) and
`keys.ts` are not part of the available sources; those pieces are
modelled from the specification (marked `Modelled from the spec:`).

Conventions of the embedding:
- JavaScript strings are Lean `String`s (a wrapper around `List Char`).
- Callbacks are identified by `Nat` ids; "invoking a callback" is
  reported by returning its id.
- Closures created by `register`/`registerOnAll` are explicit handler
  records; JavaScript reference identity of a closure is modelled by a
  fresh `token : Nat` drawn from a counter in the state.
- A window (`Electron.WebContents`) is identified by its numeric `id`
  (`webContents.id`), the only property the sources read.
- The collaborator event emitters (Node.js `EventEmitter` on a
  WebContents and on `app`) are modelled as listener lists in the
  state: `on` appends, `removeListener` removes the most recently
  added matching listener and raises a TypeError when handed a value
  that is not a function (Node validates the listener argument).
- The JavaScript `Record<string, _>` caches of `cache.ts` are
  association lists with `get`/`set`/`delete`.
- Exceptions are modelled by returning `Option JsError` alongside the
  state reached when the exception escapes.
-/

namespace ElectronShortcuts

/-- Errors observable from the embedded operations: the
`MalformedAccelerator` parse failure, and the `TypeError` Node's
`EventEmitter.removeListener` raises on a non-function listener. -/
inductive JsError where
  | malformedAccelerator
  | typeError
deriving DecidableEq, Repr

/-! ## Association-list model of the `Record<string, _>` caches -/

section AssocMap

variable {κ : Type} {α : Type} [DecidableEq κ]

/-- Lookup in a JavaScript record: `m[k]` (yielding `undefined` as `none`). -/
def getA (k : κ) : List (κ × α) → Option α
  | [] => none
  | (k', v) :: m => if k' = k then some v else getA k m

/-- Deletion in a JavaScript record: `delete m[k]`. -/
def delA (k : κ) : List (κ × α) → List (κ × α)
  | [] => []
  | (k', v) :: m => if k' = k then delA k m else (k', v) :: delA k m

/-- Assignment in a JavaScript record, `m[k] = v`: unconditional overwrite; at most one entry per key. -/
def setA (k : κ) (v : α) (m : List (κ × α)) : List (κ × α) :=
  delA k m ++ [(k, v)]

/-- Number of entries stored under key `k`. -/
def countA (k : κ) (m : List (κ × α)) : Nat :=
  (m.filter (fun p => p.1 = k)).length

@[simp] theorem getA_nil (k : κ) : getA k ([] : List (κ × α)) = none := rfl

@[simp] theorem getA_delA_self (k : κ) (m : List (κ × α)) :
    getA k (delA k m) = none := by
  induction m with
  | nil => rfl
  | cons p m ih =>
    obtain ⟨k', v⟩ := p
    by_cases h : k' = k
    · simp [delA, h, ih]
    · simp [delA, getA, h, ih]

theorem getA_delA_ne (k k' : κ) (m : List (κ × α)) (h : k' ≠ k) :
    getA k' (delA k m) = getA k' m := by
  induction m with
  | nil => rfl
  | cons p m ih =>
    obtain ⟨k0, v⟩ := p
    by_cases h0 : k0 = k
    · subst h0
      simp [delA, getA, Ne.symm h, ih]
    · by_cases h1 : k0 = k'
      · subst h1
        simp [delA, getA, h0, h]
      · simp [delA, getA, h0, h1, ih]

theorem getA_append (k : κ) (m m' : List (κ × α)) :
    getA k (m ++ m') = ((getA k m).orElse (fun _ => getA k m')) := by
  induction m with
  | nil => simp [getA]
  | cons p m ih =>
    obtain ⟨k', v⟩ := p
    by_cases h : k' = k
    · simp [getA, h]
    · simp [getA, h, ih]

@[simp] theorem getA_setA_self (k : κ) (v : α) (m : List (κ × α)) :
    getA k (setA k v m) = some v := by
  simp [setA, getA_append, getA]

theorem getA_setA_ne (k k' : κ) (v : α) (m : List (κ × α)) (h : k' ≠ k) :
    getA k' (setA k v m) = getA k' m := by
  simp [setA, getA_append, getA_delA_ne k k' m h, getA, Ne.symm h]

@[simp] theorem countA_delA_self (k : κ) (m : List (κ × α)) :
    countA k (delA k m) = 0 := by
  induction m with
  | nil => rfl
  | cons p m ih =>
    obtain ⟨k', v⟩ := p
    by_cases h : k' = k
    · simpa [delA, h] using ih
    · simp only [delA, if_neg h]
      simpa [countA, List.filter_cons, h] using ih

@[simp] theorem countA_setA_self (k : κ) (v : α) (m : List (κ × α)) :
    countA k (setA k v m) = 1 := by
  have h0 : countA k (delA k m) = 0 := countA_delA_self k m
  simp [countA] at h0
  simp [setA, countA, List.filter_append, List.filter_cons]
  exact h0

end AssocMap

/-! ## Decimal rendering of window ids

JavaScript template interpolation `${webContents.id}` renders the id
in decimal.  `natDigits` is that rendering; its characters are the
digits `'0'`–`'9'`, so the `'-'` delimiter of the cache key never
occurs inside it. -/

/-- Decimal digit characters of `n`, most significant first
(the JavaScript rendering of a non-negative integer). -/
def natDigits (n : Nat) : List Char :=
  if h : n < 10 then [Char.ofNat (48 + n)]
  else natDigits (n / 10) ++ [Char.ofNat (48 + n % 10)]
termination_by n
decreasing_by exact Nat.div_lt_self (by omega) (by omega)

theorem char_digit_toNat : ∀ k, k < 10 → (Char.ofNat (48 + k)).toNat = 48 + k := by
  decide

theorem char_digit_ne_dash : ∀ k, k < 10 → Char.ofNat (48 + k) ≠ '-' := by
  decide

theorem natDigits_ne_dash (n : Nat) : ∀ c ∈ natDigits n, c ≠ '-' := by
  induction n using Nat.strong_induction_on with
  | _ n ih =>
    rw [natDigits]
    split
    · intro c hc
      simp at hc
      subst hc
      exact char_digit_ne_dash n (by omega)
    · intro c hc
      simp at hc
      rcases hc with hc | hc
      · exact ih (n / 10) (Nat.div_lt_self (by omega) (by omega)) c hc
      · subst hc
        exact char_digit_ne_dash (n % 10) (by omega)

/-- Value of a digit list, used only to prove `natDigits` injective. -/
def digitsVal (l : List Char) : Nat :=
  l.foldl (fun a c => a * 10 + (c.toNat - 48)) 0

theorem digitsVal_natDigits (n : Nat) : digitsVal (natDigits n) = n := by
  induction n using Nat.strong_induction_on with
  | _ n ih =>
    rw [natDigits]
    split
    · simp [digitsVal, char_digit_toNat n (by omega)]
    · have h10 : n % 10 < 10 := Nat.mod_lt _ (by omega)
      have hv := ih (n / 10) (Nat.div_lt_self (by omega) (by omega))
      simp [digitsVal, List.foldl_append] at hv ⊢
      rw [hv, char_digit_toNat (n % 10) h10]
      omega

theorem natDigits_inj {m n : Nat} (h : natDigits m = natDigits n) : m = n := by
  have := congrArg digitsVal h
  rwa [digitsVal_natDigits, digitsVal_natDigits] at this

/-- Splitting at a `'-'` that occurs in neither tail is unambiguous. -/
theorem append_dash_inj :
    ∀ (x y d e : List Char), (∀ c ∈ d, c ≠ '-') → (∀ c ∈ e, c ≠ '-') →
      x ++ '-' :: d = y ++ '-' :: e → x = y ∧ d = e := by
  intro x
  induction x with
  | nil =>
    intro y d e hd he h
    cases y with
    | nil =>
      simp at h
      exact ⟨rfl, h⟩
    | cons b ys =>
      simp at h
      obtain ⟨hb, hrest⟩ := h
      exfalso
      exact hd ('-') (by rw [hrest]; simp) rfl
  | cons c xs ih =>
    intro y d e hd he h
    cases y with
    | nil =>
      simp at h
      obtain ⟨hb, hrest⟩ := h
      exfalso
      exact he ('-') (by rw [← hrest]; simp) rfl
    | cons b ys =>
      simp at h
      obtain ⟨hb, hrest⟩ := h
      obtain ⟨h1, h2⟩ := ih ys d e hd he hrest
      exact ⟨by rw [hb, h1], h2⟩

/-! ## Accelerator parser and normalizer

`utils.ts` and `input.ts` are not among the available sources; the
definitions below are modelled from the specification (sections 4.1
and 6). -/

/-- Modelled from the spec: the canonical modifiers of §4.1
(`CommandOrControl`, `Control`, `Command`, `Alt`, `Shift`, `Super`).
The missing `input.ts` maps each canonical modifier 1:1 to a snapshot
flag, so the same type serves as the snapshot flag ("input property")
type. -/
inductive Modifier where
  | commandOrControl
  | control
  | command
  | alt
  | shift
  | superKey
deriving DecidableEq, Repr

/-- The JavaScript `toLowerCase()` on a string, character by character. -/
def jsToLower (s : String) : String :=
  ⟨s.data.map Char.toLower⟩

/-- Modelled from the spec: missing `input.ts` `inputProperties`, the
list of all snapshot modifier flags (one per canonical modifier, §3). -/
def inputProperties : List Modifier :=
  [Modifier.commandOrControl, Modifier.control, Modifier.command,
   Modifier.alt, Modifier.shift, Modifier.superKey]

theorem mem_inputProperties (m : Modifier) : m ∈ inputProperties := by
  cases m <;> simp [inputProperties]

/-- Modelled from the spec: the closed, case-insensitive modifier alias
table of §4.1/§6 (`CommandOrControl`/`CmdOrCtrl`, `Control`/`Ctrl`,
`Command`/`Cmd`, `Alt`/`Option`/`AltGr`, `Shift`, `Super`/`Meta`);
`none` for a token that is not a modifier alias. -/
def normalizeModifier (t : String) : Option Modifier :=
  match jsToLower t with
  | "commandorcontrol" => some Modifier.commandOrControl
  | "cmdorctrl" => some Modifier.commandOrControl
  | "control" => some Modifier.control
  | "ctrl" => some Modifier.control
  | "command" => some Modifier.command
  | "cmd" => some Modifier.command
  | "alt" => some Modifier.alt
  | "option" => some Modifier.alt
  | "altgr" => some Modifier.alt
  | "shift" => some Modifier.shift
  | "super" => some Modifier.superKey
  | "meta" => some Modifier.superKey
  | _ => none

/-- A token resolves to a modifier iff the alias table recognizes it. -/
def isModifierToken (t : String) : Bool :=
  (normalizeModifier t).isSome

/-- Duplicate canonical modifiers collapse to one (§4.1). -/
def dedupModifiers : List Modifier → List Modifier
  | [] => []
  | m :: ms => if m ∈ ms then dedupModifiers ms else m :: dedupModifiers ms

/-- Modelled from the spec: missing `utils.ts` `normalizeModifiers` —
maps recognized modifier tokens through the alias table, collapsing
duplicates (§4.1). -/
def normalizeModifiers (ts : List String) : List Modifier :=
  dedupModifiers (ts.filterMap normalizeModifier)

/-- Modelled from the spec: missing `utils.ts` `normalizeNonModifier` —
lower-cases the non-modifier key, no alias table (§4.1). -/
def normalizeNonModifier (t : String) : String :=
  jsToLower t

/-- Modelled from the spec: missing `utils.ts`
`normalizedModifierToInputProperty` — the fixed 1:1 mapping from each
canonical modifier to its snapshot flag (§4.1). -/
def normalizedModifierToInputProperty (m : Modifier) : Modifier := m

/-- Split a character list at every occurrence of `sep`
(the semantics of JavaScript `String.prototype.split`). -/
def splitList (sep : Char) : List Char → List (List Char)
  | [] => [[]]
  | c :: cs =>
    match splitList sep cs with
    | [] => if c = sep then [[], [c]] else [[c]]
    | t :: ts => if c = sep then [] :: t :: ts else (c :: t) :: ts

/-- Tokenization `raw.split('+')`: the `+`-delimited tokens of an accelerator (§6). -/
def splitOnPlus (s : String) : List String :=
  (splitList '+' s.data).map (fun l => ⟨l⟩)

/-- Modelled from the spec: missing `utils.ts` `split` — tokenizes the
raw accelerator and partitions the tokens into modifier aliases and
non-modifier keys (a token not in the alias table is treated as the
key, §6); raises `MalformedAccelerator` when a token is empty or when
the number of non-modifier tokens differs from one (§4.1, §7). -/
def splitAccel (raw : String) : Except JsError (List String × List String) :=
  let tokens := splitOnPlus raw
  if tokens.any (fun t => t = "") then Except.error JsError.malformedAccelerator
  else
    let modifierTokens := tokens.filter (fun t => isModifierToken t)
    let nonModifierTokens := tokens.filter (fun t => !isModifierToken t)
    if nonModifierTokens.length = 1 then Except.ok (modifierTokens, nonModifierTokens)
    else Except.error JsError.malformedAccelerator

/-! ## Key-event snapshots and the matcher (src/main.ts lines 62-94) -/

/-- An Electron `Input` snapshot: the event type string (`"keyUp"`,
`"keyDown"`, ...), the key, and one held-flag per canonical modifier
(§3; the flag names of the missing `input.ts` are modelled by
`Modifier` itself). -/
structure Input where
  type : String
  key : String
  commandOrControl : Bool
  control : Bool
  command : Bool
  alt : Bool
  shift : Bool
  superKey : Bool
deriving DecidableEq, Repr

/-- Read the snapshot flag `i[mod]` selected by an input property. -/
def getFlag (i : Input) : Modifier → Bool
  | Modifier.commandOrControl => i.commandOrControl
  | Modifier.control => i.control
  | Modifier.command => i.command
  | Modifier.alt => i.alt
  | Modifier.shift => i.shift
  | Modifier.superKey => i.superKey

/-- Embeds `modifiersCheckNonStrict` of `register` (main.ts line 75): every
required input property is held. -/
def modifiersCheckNonStrict (inputModifiers : List Modifier) (i : Input) : Bool :=
  inputModifiers.all (fun m => getFlag i m)

/-- The input properties not required by the accelerator
(`excessInputProperties`, main.ts line 64). -/
def excessInputProperties (inputModifiers : List Modifier) : List Modifier :=
  inputProperties.filter (fun p => !(decide (p ∈ inputModifiers)))

/-- Embeds `modifiersCheckStrict` of `register` (main.ts line 63): the
non-strict check, and no excess input property is held. -/
def modifiersCheckStrict (inputModifiers : List Modifier) (i : Input) : Bool :=
  modifiersCheckNonStrict inputModifiers i &&
    (excessInputProperties inputModifiers).all (fun m => !getFlag i m)

/-- Embeds `modifiersCheck`, selected by the `strict` option (main.ts line 78). -/
def modifiersCheck (strict : Bool) (inputModifiers : List Modifier) (i : Input) : Bool :=
  if strict then modifiersCheckStrict inputModifiers i
  else modifiersCheckNonStrict inputModifiers i

/-- Whether the handler built by `register` invokes its callback on
snapshot `i` (main.ts lines 84-94): key-up events are ignored; on any
other event the keys are compared lower-cased and the modifier check
runs. -/
def fires (inputModifiers : List Modifier) (normalizedNonModifier : String)
    (strict : Bool) (i : Input) : Bool :=
  if i.type = "keyUp" then false
  else if jsToLower i.key = jsToLower normalizedNonModifier then
    modifiersCheck strict inputModifiers i
  else false

/-! ## Handler records and the process state -/

/-- The closure built by `register` (main.ts lines 63-94) as an explicit
record: the normalized input properties, the normalized non-modifier
key, the strictness flag and the callback it closes over, plus a fresh
`token` modelling JavaScript reference identity of the closure. -/
structure NHandler where
  modifiers : List Modifier
  key : String
  strict : Bool
  callback : Nat
  token : Nat
deriving DecidableEq, Repr

/-- The closure built by `registerOnAll` (main.ts line 128) as an
explicit record: it closes over the raw accelerator, the callback and
the options; `token` models reference identity. -/
structure OnAllHandler where
  accelerator : String
  callback : Nat
  options : Option Bool
  token : Nat
deriving DecidableEq, Repr

/-- The process-wide mutable state: the three caches of `cache.ts`,
the per-window `before-input-event` listener lists, the app-level
`browser-window-created` listener list, the OS-level bindings held by
the `globalShortcut` collaborator, the set of open windows, and the
counter supplying closure-identity tokens. -/
structure State where
  localShortcutMap : List (List Char × (NHandler × Nat))
  allShortcutMap : List (String × OnAllHandler)
  globalShortcutMap : List (String × Nat)
  subs : Nat → List NHandler
  appListeners : List OnAllHandler
  osBindings : List (String × Nat)
  windows : List Nat
  nextToken : Nat

/-- The state at process start: every store empty (§5). -/
def State.init : State :=
  { localShortcutMap := []
    allShortcutMap := []
    globalShortcutMap := []
    subs := fun _ => []
    appListeners := []
    osBindings := []
    windows := []
    nextToken := 0 }

/-! ## The caches (src/cache.ts) -/

/-- The key of `localShortcutMap`: the template literal
`` `${accelerator}-${webContents.id}` `` (cache.ts line 13) — the raw
accelerator text, a `'-'`, and the decimal window id. -/
def localKey (accelerator : String) (wid : Nat) : List Char :=
  accelerator.data ++ '-' :: natDigits wid

/-- Embeds `getShortcutLocal` (cache.ts line 9). -/
def getShortcutLocal (accelerator : String) (wid : Nat) (st : State) :
    Option (NHandler × Nat) :=
  getA (localKey accelerator wid) st.localShortcutMap

/-- Embeds `setShortcutLocal` (cache.ts line 15): stores the `[handler,
webContents]` pair. -/
def setShortcutLocalOp (accelerator : String) (wid : Nat) (h : NHandler)
    (st : State) : State :=
  { st with
    localShortcutMap := setA (localKey accelerator wid) (h, wid) st.localShortcutMap }

/-- Embeds `deleteShortcutLocal` (cache.ts line 23). -/
def deleteShortcutLocalOp (accelerator : String) (wid : Nat) (st : State) : State :=
  { st with localShortcutMap := delA (localKey accelerator wid) st.localShortcutMap }

/-- Embeds `getShortcutOnAll` (cache.ts line 32). -/
def getShortcutOnAll (accelerator : String) (st : State) : Option OnAllHandler :=
  getA accelerator st.allShortcutMap

/-- Embeds `setShortcutOnAll` (cache.ts line 36). -/
def setShortcutOnAllOp (accelerator : String) (h : OnAllHandler) (st : State) : State :=
  { st with allShortcutMap := setA accelerator h st.allShortcutMap }

/-- Embeds `getShortcutGlobal` (cache.ts line 52); the stored value is the
callback passed to `registerGlobal`. -/
def getShortcutGlobal (accelerator : String) (st : State) : Option Nat :=
  getA accelerator st.globalShortcutMap

/-- Embeds `setShortcutGlobal` (cache.ts line 56). -/
def setShortcutGlobalOp (accelerator : String) (cb : Nat) (st : State) : State :=
  { st with globalShortcutMap := setA accelerator cb st.globalShortcutMap }

/-- Embeds `deleteShortcutGlobal` (cache.ts line 63). -/
def deleteShortcutGlobalOp (accelerator : String) (st : State) : State :=
  { st with globalShortcutMap := delA accelerator st.globalShortcutMap }

/-! ## Collaborator primitives (window event stream, app, globalShortcut) -/

/-- Remove the first occurrence of `h`. -/
def eraseFirst {α : Type} [DecidableEq α] (h : α) : List α → List α
  | [] => []
  | x :: xs => if x = h then xs else x :: eraseFirst h xs

/-- Remove the most recently added occurrence of `h` (Node's
`EventEmitter.removeListener` searches the listener array backwards). -/
def removeLastOcc {α : Type} [DecidableEq α] (h : α) (l : List α) : List α :=
  (eraseFirst h l.reverse).reverse

/-- Embeds `wc.on('before-input-event', handler)` (main.ts line 112): append
the handler to the window's listener list. -/
def attachListener (wid : Nat) (h : NHandler) (st : State) : State :=
  { st with subs := fun w => if w = wid then st.subs w ++ [h] else st.subs w }

/-- The update `removeListener` performs on a window's listener list. -/
def eraseSubListener (wid : Nat) (h : NHandler) (st : State) : State :=
  { st with subs := fun w => if w = wid then removeLastOcc h (st.subs w) else st.subs w }

/-- Embeds `webContents.removeListener('before-input-event', handler)`
(main.ts line 151): Node's `EventEmitter` validates the listener
argument, so passing the `undefined` obtained from a missing cache
entry raises a `TypeError`; a genuine handler is removed (most recent
occurrence first). -/
def removeListenerOp (wid : Nat) (h? : Option NHandler) (st : State) :
    Option JsError × State :=
  match h? with
  | none => (some JsError.typeError, st)
  | some h => (none, eraseSubListener wid h st)

/-! ## The orchestrator (src/main.ts) -/

/-- Embeds `isRegisteredLocal` (main.ts line 23): `!!getShortcutLocal(...)`. -/
def isRegisteredLocal (accelerator : String) (wid : Nat) (st : State) : Bool :=
  (getShortcutLocal accelerator wid st).isSome

/-- Embeds `isRegisteredOnAll` (main.ts line 30). -/
def isRegisteredOnAll (accelerator : String) (st : State) : Bool :=
  (getShortcutOnAll accelerator st).isSome

/-- Embeds `isRegisteredGlobal` (main.ts line 36). -/
def isRegisteredGlobal (accelerator : String) (st : State) : Bool :=
  (getShortcutGlobal accelerator st).isSome

/-- The input properties the `register` closure computes from the
modifier tokens (main.ts line 57). -/
def inputModifiersOf (modifierTokens : List String) : List Modifier :=
  (normalizeModifiers modifierTokens).map normalizedModifierToInputProperty

/-- The normalized non-modifier key the `register` closure computes
(main.ts line 60); `split` guarantees exactly one non-modifier token,
destructured as `[nonModifier]`. -/
def normalizedKeyOf (nonModifierTokens : List String) : String :=
  normalizeNonModifier (nonModifierTokens.headD "")

/-- The handler closure `register` builds (main.ts lines 63-94) with a
fresh identity token. -/
def mkLocalHandler (modifierTokens nonModifierTokens : List String)
    (strict : Bool) (cb tok : Nat) : NHandler :=
  { modifiers := inputModifiersOf modifierTokens
    key := normalizedKeyOf nonModifierTokens
    strict := strict
    callback := cb
    token := tok }

/-- Embeds `unregister` (main.ts lines 144-156): look the handler up, then —
because the guard tests the always-truthy `webContents` rather than
the handler — always run `doUnregister`: detach the (possibly
`undefined`) handler from the window's event stream, and on success
delete the cache entry. -/
def unregister (accelerator : String) (wid : Nat) (st : State) :
    Option JsError × State :=
  match removeListenerOp wid ((getShortcutLocal accelerator wid st).map Prod.fst) st with
  | (some e, st') => (some e, st')
  | (none, st') => (none, deleteShortcutLocalOp accelerator wid st')

/-- Embeds `register` (main.ts lines 44-116): parse and normalize the
accelerator, build the handler closure, unregister a previous
registration of the same `(accelerator, window)` if present, store the
new entry and attach the handler to the window's event stream. -/
def register (accelerator : String) (cb : Nat) (wid : Nat)
    (options : Option Bool) (st : State) : Option JsError × State :=
  match splitAccel accelerator with
  | Except.error e => (some e, st)
  | Except.ok (modifierTokens, nonModifierTokens) =>
    let strict := options.getD false
    let h := mkLocalHandler modifierTokens nonModifierTokens strict cb st.nextToken
    let st1 : State := { st with nextToken := st.nextToken + 1 }
    match (if isRegisteredLocal accelerator wid st1
           then unregister accelerator wid st1 else (none, st1)) with
    | (some e, st2) => (some e, st2)
    | (none, st2) =>
      (none, attachListener wid h (setShortcutLocalOp accelerator wid h st2))

/-- The `forEach` of `registerOnAll` (main.ts line 138): `register` on
every open window; an exception aborts the loop and escapes with the
state reached so far. -/
def registerAllWindows (accelerator : String) (cb : Nat) (options : Option Bool) :
    List Nat → State → Option JsError × State
  | [], st => (none, st)
  | w :: ws, st =>
    match register accelerator cb w options st with
    | (some e, st') => (some e, st')
    | (none, st') => registerAllWindows accelerator cb options ws st'

/-- Embeds `registerOnAll` (main.ts lines 120-141): subscribe a
window-creation handler, store it as the OnAll entry (overwriting any
previous one without unsubscribing it), then `register` on every
currently open window. -/
def registerOnAll (accelerator : String) (cb : Nat) (options : Option Bool)
    (st : State) : Option JsError × State :=
  let windows := st.windows
  let h : OnAllHandler :=
    { accelerator := accelerator, callback := cb, options := options,
      token := st.nextToken }
  let st1 : State := { st with nextToken := st.nextToken + 1 }
  let st2 : State := { st1 with appListeners := st1.appListeners ++ [h] }
  let st3 := setShortcutOnAllOp accelerator h st2
  registerAllWindows accelerator cb options windows st3

/-- Embeds `unregisterGlobal` (main.ts lines 199-208): delete the cache entry
and ask the OS collaborator to release the binding
(`globalShortcut.unregister`, modelled per §6 as a map delete). -/
def unregisterGlobal (accelerator : String) (st : State) : State :=
  let st1 := deleteShortcutGlobalOp accelerator st
  { st1 with osBindings := delA accelerator st1.osBindings }

/-- Embeds `unregisterPreviousIfNeeded` of `registerGlobal` (main.ts line 184). -/
def registerGlobalRelease (accelerator : String) (st : State) : State :=
  if isRegisteredGlobal accelerator st then unregisterGlobal accelerator st else st

/-- Embeds `registerGlobal` (main.ts lines 178-196): fully release any
previous binding, store the new cache entry, then request OS-level
capture (`globalShortcut.register`, modelled per §6 as a map set). -/
def registerGlobal (accelerator : String) (cb : Nat) (st : State) : State :=
  let st1 := registerGlobalRelease accelerator st
  let st2 := setShortcutGlobalOp accelerator cb st1
  { st2 with osBindings := setA accelerator cb st2.osBindings }

/-! ## Event delivery -/

/-- Delivering one key-event snapshot to a window: every subscribed
handler runs in attach order; the result is the list of callback ids
invoked. -/
def invokedCallbacks (st : State) (wid : Nat) (i : Input) : List Nat :=
  (st.subs wid).filterMap
    (fun h => if fires h.modifiers h.key h.strict i then some h.callback else none)

/-- Running the `browser-window-created` listeners in subscription
order for a newly created window (each is the `registerOnAll` closure
of main.ts line 128, calling `register` with what it closed over); an
exception aborts the remaining listeners. -/
def runCreationListeners (wid : Nat) :
    List OnAllHandler → State → Option JsError × State
  | [], st => (none, st)
  | h :: t, st =>
    match register h.accelerator h.callback wid h.options st with
    | (some e, st') => (some e, st')
    | (none, st') => runCreationListeners wid t st'

/-- Creation of a new window: it joins the open-window list and the
`browser-window-created` event fires, running the subscribed listeners
in order. -/
def windowCreated (wid : Nat) (st : State) : Option JsError × State :=
  let st1 : State := { st with windows := st.windows ++ [wid] }
  runCreationListeners wid st1.appListeners st1

/-- Triggering the OS-level binding for an accelerator: the callback
the collaborator currently holds, if any. -/
def triggerGlobal (st : State) (accelerator : String) : Option Nat :=
  getA accelerator st.osBindings

/-! ## Helper lemmas about the operations -/

/-- The cache key is injective: raw accelerator and window id are
recoverable from `accelerator ++ "-" ++ decimal id`, because the
decimal id contains no `'-'`. -/
theorem localKey_inj {a1 a2 : String} {w1 w2 : Nat}
    (h : localKey a1 w1 = localKey a2 w2) : a1 = a2 ∧ w1 = w2 := by
  obtain ⟨h1, h2⟩ := append_dash_inj a1.data a2.data (natDigits w1) (natDigits w2)
    (natDigits_ne_dash w1) (natDigits_ne_dash w2) h
  refine ⟨?_, natDigits_inj h2⟩
  cases a1
  cases a2
  exact congrArg String.mk h1

@[simp] theorem removeLastOcc_nil {α : Type} [DecidableEq α] (h : α) :
    removeLastOcc h ([] : List α) = [] := rfl

@[simp] theorem removeLastOcc_singleton_self {α : Type} [DecidableEq α] (h : α) :
    removeLastOcc h [h] = [] := by
  simp [removeLastOcc, eraseFirst]

@[simp] theorem subs_attachListener (wid : Nat) (h : NHandler) (st : State) :
    (attachListener wid h st).subs wid = st.subs wid ++ [h] := by
  simp [attachListener]

theorem subs_attachListener_ne (wid w : Nat) (h : NHandler) (st : State) (hw : w ≠ wid) :
    (attachListener wid h st).subs w = st.subs w := by
  simp [attachListener, hw]

@[simp] theorem subs_setShortcutLocalOp (a : String) (wid : Nat) (h : NHandler)
    (st : State) (w : Nat) : (setShortcutLocalOp a wid h st).subs w = st.subs w := rfl

@[simp] theorem subs_deleteShortcutLocalOp (a : String) (wid : Nat)
    (st : State) (w : Nat) : (deleteShortcutLocalOp a wid st).subs w = st.subs w := rfl

@[simp] theorem subs_eraseSubListener (wid : Nat) (h : NHandler) (st : State) :
    (eraseSubListener wid h st).subs wid = removeLastOcc h (st.subs wid) := by
  simp [eraseSubListener]

@[simp] theorem getShortcutLocal_attachListener (a : String) (wid w : Nat)
    (h : NHandler) (st : State) :
    getShortcutLocal a wid (attachListener w h st) = getShortcutLocal a wid st := rfl

@[simp] theorem getShortcutLocal_eraseSubListener (a : String) (wid w : Nat)
    (h : NHandler) (st : State) :
    getShortcutLocal a wid (eraseSubListener w h st) = getShortcutLocal a wid st := rfl

@[simp] theorem getShortcutLocal_setShortcutLocalOp_self (a : String) (wid : Nat)
    (h : NHandler) (st : State) :
    getShortcutLocal a wid (setShortcutLocalOp a wid h st) = some (h, wid) := by
  simp [getShortcutLocal, setShortcutLocalOp]

@[simp] theorem getShortcutLocal_deleteShortcutLocalOp_self (a : String) (wid : Nat)
    (st : State) :
    getShortcutLocal a wid (deleteShortcutLocalOp a wid st) = none := by
  simp [getShortcutLocal, deleteShortcutLocalOp]

/-- Behaviour of `register` on a well-formed accelerator over no previous
registration for the same key. -/
theorem register_ok_not_registered (a : String) (mods nms : List String)
    (cb wid : Nat) (opts : Option Bool) (st : State)
    (hp : splitAccel a = Except.ok (mods, nms))
    (hr : isRegisteredLocal a wid st = false) :
    register a cb wid opts st =
      (none, attachListener wid (mkLocalHandler mods nms (opts.getD false) cb st.nextToken)
        (setShortcutLocalOp a wid (mkLocalHandler mods nms (opts.getD false) cb st.nextToken)
          { st with nextToken := st.nextToken + 1 })) := by
  have hr1 : isRegisteredLocal a wid { st with nextToken := st.nextToken + 1 } = false := hr
  simp [register, hp, hr1]

/-- Behaviour of `register` on a well-formed accelerator over an existing
registration for the same key: the old handler is detached and its
entry deleted before the new one is stored and attached. -/
theorem register_ok_registered (a : String) (mods nms : List String)
    (cb wid : Nat) (opts : Option Bool) (st : State) (h0 : NHandler) (w0 : Nat)
    (hp : splitAccel a = Except.ok (mods, nms))
    (hg : getShortcutLocal a wid st = some (h0, w0)) :
    register a cb wid opts st =
      (none, attachListener wid (mkLocalHandler mods nms (opts.getD false) cb st.nextToken)
        (setShortcutLocalOp a wid (mkLocalHandler mods nms (opts.getD false) cb st.nextToken)
          (deleteShortcutLocalOp a wid
            (eraseSubListener wid h0 { st with nextToken := st.nextToken + 1 })))) := by
  have hg1 : getShortcutLocal a wid { st with nextToken := st.nextToken + 1 } = some (h0, w0) := hg
  simp [register, hp, isRegisteredLocal, hg1, unregister, removeListenerOp]

/-- Behaviour of `unregister` when the entry is present: detach, then delete. -/
theorem unregister_present (a : String) (wid : Nat) (st : State)
    (h : NHandler) (w0 : Nat)
    (hg : getShortcutLocal a wid st = some (h, w0)) :
    unregister a wid st = (none, deleteShortcutLocalOp a wid (eraseSubListener wid h st)) := by
  simp [unregister, hg, removeListenerOp]

/-- Any `register` with a well-formed accelerator succeeds and leaves the
new handler stored under the key, whatever the starting state. -/
theorem register_ok_any (a : String) (mods nms : List String)
    (cb wid : Nat) (opts : Option Bool) (st : State)
    (hp : splitAccel a = Except.ok (mods, nms)) :
    ∃ st', register a cb wid opts st = (none, st') ∧
      getShortcutLocal a wid st' =
        some (mkLocalHandler mods nms (opts.getD false) cb st.nextToken, wid) := by
  by_cases hr : isRegisteredLocal a wid st
  · obtain ⟨⟨h0, w0⟩, hg⟩ : ∃ p, getShortcutLocal a wid st = some p := by
      cases hgl : getShortcutLocal a wid st
      · simp [isRegisteredLocal, hgl] at hr
      · exact ⟨_, rfl⟩
    refine ⟨_, register_ok_registered a mods nms cb wid opts st h0 w0 hp hg, ?_⟩
    simp
  · refine ⟨_, register_ok_not_registered a mods nms cb wid opts st hp
      (by simpa using hr), ?_⟩
    simp

/-- Behaviour of `register` with a well-formed accelerator on a window with no
attached listeners: afterwards exactly the new handler is attached. -/
theorem register_ok_clean (a : String) (mods nms : List String)
    (cb wid : Nat) (opts : Option Bool) (st : State)
    (hp : splitAccel a = Except.ok (mods, nms))
    (hs : st.subs wid = []) :
    ∃ st', register a cb wid opts st = (none, st') ∧
      getShortcutLocal a wid st' =
        some (mkLocalHandler mods nms (opts.getD false) cb st.nextToken, wid) ∧
      st'.subs wid = [mkLocalHandler mods nms (opts.getD false) cb st.nextToken] ∧
      st'.nextToken = st.nextToken + 1 := by
  by_cases hr : isRegisteredLocal a wid st
  · obtain ⟨⟨h0, w0⟩, hg⟩ : ∃ p, getShortcutLocal a wid st = some p := by
      cases hgl : getShortcutLocal a wid st
      · simp [isRegisteredLocal, hgl] at hr
      · exact ⟨_, rfl⟩
    refine ⟨_, register_ok_registered a mods nms cb wid opts st h0 w0 hp hg, by simp, ?_, rfl⟩
    simp [hs]
  · refine ⟨_, register_ok_not_registered a mods nms cb wid opts st hp
      (by simpa using hr), by simp, ?_, rfl⟩
    simp [hs]

/-- Writing one local entry leaves every other key's entry unchanged. -/
theorem getShortcutLocal_setShortcutLocalOp_ne (a a' : String) (wid wid' : Nat)
    (h : NHandler) (st : State)
    (hne : localKey a' wid' ≠ localKey a wid) :
    getShortcutLocal a' wid' (setShortcutLocalOp a wid h st) =
      getShortcutLocal a' wid' st := by
  simp [getShortcutLocal, setShortcutLocalOp, getA_setA_ne _ _ _ _ hne]

/-- Two consecutive `register` calls for the same key on a window with
no attached listeners leave exactly the second handler attached. -/
theorem register_twice_subs (a : String) (mods nms : List String)
    (cb1 cb2 wid : Nat) (opts : Option Bool) (st : State)
    (hp : splitAccel a = Except.ok (mods, nms))
    (hs : st.subs wid = []) :
    ∃ stf, (register a cb1 wid opts st).1 = none ∧
      register a cb2 wid opts (register a cb1 wid opts st).2 = (none, stf) ∧
      stf.subs wid = [mkLocalHandler mods nms (opts.getD false) cb2 (st.nextToken + 1)] ∧
      getShortcutLocal a wid stf =
        some (mkLocalHandler mods nms (opts.getD false) cb2 (st.nextToken + 1), wid) := by
  obtain ⟨S1, hS1, hg1, hsubs1, htok1⟩ := register_ok_clean a mods nms cb1 wid opts st hp hs
  have h2eq := register_ok_registered a mods nms cb2 wid opts S1 _ wid hp hg1
  refine ⟨_, by rw [hS1], by rw [hS1, h2eq], ?_, by simp [htok1]⟩
  simp [hsubs1, htok1]

/-- Behaviour of `registerOnAll` when no window is open: subscribe the creation
handler and store the OnAll entry; the `forEach` registers nothing. -/
theorem registerOnAll_no_windows (a : String) (cb : Nat) (opts : Option Bool)
    (st : State) (hw : st.windows = []) :
    registerOnAll a cb opts st =
      (none, setShortcutOnAllOp a
        { accelerator := a, callback := cb, options := opts, token := st.nextToken }
        { st with
          appListeners := st.appListeners ++
            [{ accelerator := a, callback := cb, options := opts, token := st.nextToken }]
          nextToken := st.nextToken + 1 }) := by
  simp [registerOnAll, hw, registerAllWindows]

@[simp] theorem appListeners_setShortcutOnAllOp (a : String) (h : OnAllHandler)
    (st : State) : (setShortcutOnAllOp a h st).appListeners = st.appListeners := rfl

@[simp] theorem subs_setShortcutOnAllOp (a : String) (h : OnAllHandler)
    (st : State) : (setShortcutOnAllOp a h st).subs = st.subs := rfl

@[simp] theorem windows_setShortcutOnAllOp (a : String) (h : OnAllHandler)
    (st : State) : (setShortcutOnAllOp a h st).windows = st.windows := rfl

@[simp] theorem allShortcutMap_setShortcutOnAllOp (a : String) (h : OnAllHandler)
    (st : State) : (setShortcutOnAllOp a h st).allShortcutMap = setA a h st.allShortcutMap := rfl

@[simp] theorem localShortcutMap_setShortcutOnAllOp (a : String) (h : OnAllHandler)
    (st : State) : (setShortcutOnAllOp a h st).localShortcutMap = st.localShortcutMap := rfl

/-- Two `browser-window-created` listeners for the same accelerator run
in subscription order on a fresh window: the later registration
overrides the earlier, leaving a single handler with the later
callback. -/
theorem runCreation_pair (a : String) (mods nms : List String)
    (cb1 cb2 tok1 tok2 wid : Nat) (st : State)
    (hp : splitAccel a = Except.ok (mods, nms))
    (hs : st.subs wid = []) :
    ∃ stf, runCreationListeners wid
        [OnAllHandler.mk a cb1 none tok1, OnAllHandler.mk a cb2 none tok2] st
        = (none, stf) ∧
      (stf.subs wid).map NHandler.callback = [cb2] := by
  obtain ⟨stf, he1, he2, hsubs, hget⟩ :=
    register_twice_subs a mods nms cb1 cb2 wid none st hp hs
  refine ⟨stf, ?_, by simp [hsubs, mkLocalHandler]⟩
  have heq1 : register a cb1 wid none st = (none, (register a cb1 wid none st).2) := by
    rw [← he1]
  simp only [runCreationListeners]
  rw [heq1]
  dsimp only
  rw [he2]

/-- Window creation under exactly two subscribed creation handlers for
the same accelerator: no error, and the new window ends with a single
attached handler carrying the later callback. -/
theorem windowCreated_pair (a : String) (mods nms : List String)
    (cb1 cb2 tok1 tok2 wid : Nat) (st : State)
    (hp : splitAccel a = Except.ok (mods, nms))
    (hlist : st.appListeners =
      [OnAllHandler.mk a cb1 none tok1, OnAllHandler.mk a cb2 none tok2])
    (hs : st.subs wid = []) :
    ∃ stf, windowCreated wid st = (none, stf) ∧
      (stf.subs wid).map NHandler.callback = [cb2] := by
  obtain ⟨stf, hrun, hmap⟩ := runCreation_pair a mods nms cb1 cb2 tok1 tok2 wid
    { st with windows := st.windows ++ [wid] } hp hs
  refine ⟨stf, ?_, hmap⟩
  simp only [windowCreated]
  nth_rewrite 1 [hlist]
  exact hrun

/-! ## Claim theorems -/

/-- C1: for every well-formed accelerator `a`, callbacks `cb1, cb2` and
window `wid` (with no listeners yet attached), calling
`register(a, cb1, wid)` and then `register(a, cb2, wid)` leaves exactly
one active handler for `(a, wid)`: any single matching key-down
snapshot invokes exactly one callback, and it is `cb2`, the
latest-registered one. -/
theorem c1_second_register_wins (a : String) (mods nms : List String)
    (cb1 cb2 wid : Nat) (opts : Option Bool) (st : State) (i : Input)
    (hp : splitAccel a = Except.ok (mods, nms))
    (hs : st.subs wid = [])
    (hm : fires (inputModifiersOf mods) (normalizedKeyOf nms) (opts.getD false) i = true) :
    (register a cb1 wid opts st).1 = none ∧
    (register a cb2 wid opts (register a cb1 wid opts st).2).1 = none ∧
    invokedCallbacks (register a cb2 wid opts (register a cb1 wid opts st).2).2 wid i
      = [cb2] := by
  obtain ⟨stf, he1, he2, hsubs, hget⟩ :=
    register_twice_subs a mods nms cb1 cb2 wid opts st hp hs
  refine ⟨he1, by rw [he2], ?_⟩
  rw [he2]
  simp [invokedCallbacks, hsubs, mkLocalHandler, hm]

/-- Witness for C1 at `"Control+A"`, callbacks 1 then 2, window 0 and
the snapshot `keyDown a` with `control` held. -/
theorem c1_second_register_wins_witness :
    (register "Control+A" 1 0 none State.init).1 = none ∧
    (register "Control+A" 2 0 none (register "Control+A" 1 0 none State.init).2).1 = none ∧
    invokedCallbacks
      (register "Control+A" 2 0 none (register "Control+A" 1 0 none State.init).2).2 0
      (Input.mk "keyDown" "a" false true false false false false) = [2] :=
  c1_second_register_wins "Control+A" ["Control"] ["A"] 1 2 0 none State.init
    (Input.mk "keyDown" "a" false true false false false false) rfl rfl rfl

/-- C2: on a key-down snapshot whose key equals the normalized
non-modifier key case-insensitively, the non-strict check succeeds iff
every required modifier flag is held (extra held modifiers ignored),
and the strict check succeeds iff additionally every flag outside the
required set is false — the held set equals the required set exactly. -/
theorem c2_strict_vs_nonstrict (mods : List Modifier) (nkey : String) (i : Input)
    (ht : i.type = "keyDown")
    (hk : jsToLower i.key = jsToLower nkey) :
    (fires mods nkey false i = true ↔ (∀ m ∈ mods, getFlag i m = true)) ∧
    (fires mods nkey true i = true ↔
      ((∀ m ∈ mods, getFlag i m = true) ∧ (∀ m, m ∉ mods → getFlag i m = false))) := by
  have ht' : ¬(i.type = "keyUp") := by rw [ht]; decide
  constructor
  · simp [fires, ht', hk, modifiersCheck, modifiersCheckNonStrict, List.all_eq_true]
  · simp only [fires, ht', if_false, hk, if_pos rfl, if_true, modifiersCheck,
      modifiersCheckStrict, modifiersCheckNonStrict, excessInputProperties,
      Bool.and_eq_true, List.all_eq_true, List.mem_filter]
    constructor
    · rintro ⟨hA, hB⟩
      refine ⟨hA, fun m hm => ?_⟩
      have := hB m ⟨mem_inputProperties m, by simpa using hm⟩
      simpa using this
    · rintro ⟨hA, hB⟩
      refine ⟨hA, fun m hm => ?_⟩
      have := hB m (by simpa using hm.2)
      simpa using this

/-- Witness for C2 at the required set `{Control}`, key `"a"`, and the
snapshot `keyDown A` with `control` and `shift` held: non-strict
matches, strict does not. -/
theorem c2_strict_vs_nonstrict_witness :
    (fires [Modifier.control] "a" false
        (Input.mk "keyDown" "A" false true false false true false) = true ↔
      (∀ m ∈ [Modifier.control],
        getFlag (Input.mk "keyDown" "A" false true false false true false) m = true)) ∧
    (fires [Modifier.control] "a" true
        (Input.mk "keyDown" "A" false true false false true false) = true ↔
      ((∀ m ∈ [Modifier.control],
          getFlag (Input.mk "keyDown" "A" false true false false true false) m = true) ∧
        (∀ m, m ∉ [Modifier.control] →
          getFlag (Input.mk "keyDown" "A" false true false false true false) m = false))) :=
  c2_strict_vs_nonstrict [Modifier.control] "a"
    (Input.mk "keyDown" "A" false true false false true false) rfl rfl

/-- C3: a key-up snapshot never invokes any registered callback,
whatever its key or modifier flags. -/
theorem c3_keyup_never_fires (st : State) (wid : Nat) (i : Input)
    (ht : i.type = "keyUp") : invokedCallbacks st wid i = [] := by
  simp only [invokedCallbacks, List.filterMap_eq_nil_iff]
  intro h _
  simp [fires, ht]

/-- Witness for C3: a registered window receives a key-up snapshot
whose key and modifiers match the accelerator; nothing fires. -/
theorem c3_keyup_never_fires_witness :
    invokedCallbacks (register "Control+A" 1 0 none State.init).2 0
      (Input.mk "keyUp" "a" false true false false false false) = [] :=
  c3_keyup_never_fires (register "Control+A" 1 0 none State.init).2 0
    (Input.mk "keyUp" "a" false true false false false false) rfl

/-- C4: immediately after `register(a, cb, wid)` the accelerator is
registered locally; a subsequent `unregister(a, wid)` succeeds and
leaves it unregistered. -/
theorem c4_register_unregister_roundtrip (a : String) (mods nms : List String)
    (cb wid : Nat) (opts : Option Bool) (st : State)
    (hp : splitAccel a = Except.ok (mods, nms)) :
    (register a cb wid opts st).1 = none ∧
    isRegisteredLocal a wid (register a cb wid opts st).2 = true ∧
    (unregister a wid (register a cb wid opts st).2).1 = none ∧
    isRegisteredLocal a wid (unregister a wid (register a cb wid opts st).2).2 = false := by
  obtain ⟨st', hreg, hget⟩ := register_ok_any a mods nms cb wid opts st hp
  have hun := unregister_present a wid st' _ wid hget
  rw [hreg]
  refine ⟨rfl, by simp [isRegisteredLocal, hget], by rw [hun], ?_⟩
  rw [hun]
  simp [isRegisteredLocal]

/-- Witness for C4 at `"Control+A"`, window 0. -/
theorem c4_register_unregister_roundtrip_witness :
    (register "Control+A" 1 0 none State.init).1 = none ∧
    isRegisteredLocal "Control+A" 0 (register "Control+A" 1 0 none State.init).2 = true ∧
    (unregister "Control+A" 0 (register "Control+A" 1 0 none State.init).2).1 = none ∧
    isRegisteredLocal "Control+A" 0
      (unregister "Control+A" 0 (register "Control+A" 1 0 none State.init).2).2 = false :=
  c4_register_unregister_roundtrip "Control+A" ["Control"] ["A"] 1 0 none State.init rfl

/-- C5 (code behaviour at the claimed no-op): when no LocalEntry is
stored for `(a, wid)`, `unregister` is *not* a silent no-op — the
guard tests the always-truthy `webContents` instead of the looked-up
handler, so `removeListener` runs with an `undefined` listener and
raises a `TypeError`; the stores are left unchanged only because the
exception aborts the deletion. -/
theorem c5_unregister_missing_raises (a : String) (wid : Nat) (st : State)
    (hg : getShortcutLocal a wid st = none) :
    unregister a wid st = (some JsError.typeError, st) := by
  simp [unregister, hg, removeListenerOp]

/-- Witness for C5 at `"Control+A"`, window 0, empty registry. -/
theorem c5_unregister_missing_raises_witness :
    unregister "Control+A" 0 State.init = (some JsError.typeError, State.init) :=
  c5_unregister_missing_raises "Control+A" 0 State.init rfl

/-- C6 counterexample: the registry keys by the raw accelerator
string, so after `register("Ctrl+Shift+A", ...)` the case/order
variant `"shift+ctrl+a"` is *not* reported as registered, contrary to
the claim. -/
theorem c6_counterexample :
    isRegisteredLocal "shift+ctrl+a" 0
      (register "Ctrl+Shift+A" 1 0 none State.init).2 = false := by
  rfl

/-- C6 amended: the local registry keys by the raw accelerator text,
so two raw accelerators that differ as strings — even mere case/order
variants normalizing identically — are distinct keys: after
`register(a1, cb, wid)` from the empty state, `isRegisteredLocal(a2, wid)`
is false, and `unregister(a2, wid)` does not remove `a1`'s entry (it
raises the missing-entry `TypeError` and leaves `a1` registered). -/
theorem c6_raw_string_keys (a1 a2 : String) (mods nms : List String)
    (cb wid : Nat)
    (hp : splitAccel a1 = Except.ok (mods, nms))
    (hne : a1 ≠ a2) :
    isRegisteredLocal a2 wid (register a1 cb wid none State.init).2 = false ∧
    (unregister a2 wid (register a1 cb wid none State.init).2).1
      = some JsError.typeError ∧
    isRegisteredLocal a1 wid
      (unregister a2 wid (register a1 cb wid none State.init).2).2 = true := by
  have hr : isRegisteredLocal a1 wid State.init = false := rfl
  have h1 := register_ok_not_registered a1 mods nms cb wid none State.init hp hr
  have hkey : localKey a2 wid ≠ localKey a1 wid := by
    intro h
    exact hne ((localKey_inj h).1.symm)
  rw [h1]
  have hg2 : getShortcutLocal a2 wid
      (attachListener wid (mkLocalHandler mods nms false cb State.init.nextToken)
        (setShortcutLocalOp a1 wid (mkLocalHandler mods nms false cb State.init.nextToken)
          { State.init with nextToken := State.init.nextToken + 1 })) = none := by
    rw [getShortcutLocal_attachListener,
      getShortcutLocal_setShortcutLocalOp_ne a1 a2 wid wid _ _ hkey]
    rfl
  refine ⟨by simp [isRegisteredLocal, hg2], ?_, ?_⟩
  · simp [unregister, hg2, removeListenerOp]
  · simp [unregister, hg2, removeListenerOp, isRegisteredLocal]

/-- Witness for C6 amended at the spec's own normalization example:
`"Ctrl+Shift+A"` versus `"shift+ctrl+a"`. -/
theorem c6_raw_string_keys_witness :
    isRegisteredLocal "shift+ctrl+a" 0
      (register "Ctrl+Shift+A" 1 0 none State.init).2 = false ∧
    (unregister "shift+ctrl+a" 0 (register "Ctrl+Shift+A" 1 0 none State.init).2).1
      = some JsError.typeError ∧
    isRegisteredLocal "Ctrl+Shift+A" 0
      (unregister "shift+ctrl+a" 0 (register "Ctrl+Shift+A" 1 0 none State.init).2).2
      = true :=
  c6_raw_string_keys "Ctrl+Shift+A" "shift+ctrl+a" ["Ctrl", "Shift"] ["A"] 1 0 rfl
    (by decide)

/-- C10 counterexample: the claim asserts the composite key function is
not injective; in fact no two distinct (accelerator, window-id) pairs
collide, because the decimal window id contains no `'-'`. -/
theorem c10_counterexample :
    ¬ ∃ (a1 : String) (w1 : Nat) (a2 : String) (w2 : Nat),
        (¬ (a1 = a2 ∧ w1 = w2)) ∧ localKey a1 w1 = localKey a2 w2 := by
  rintro ⟨a1, w1, a2, w2, hne, hk⟩
  exact hne (localKey_inj hk)

/-- C10 amended: the local store's composite key is indeed the raw
accelerator string concatenated with the decimal window id via `'-'`,
but that key function *is* injective (the decimal id contains no
`'-'`), so writing or deleting one pair's entry never affects a
different pair's lookup. -/
theorem c10_key_injective (a1 a2 : String) (w1 w2 : Nat) (h : NHandler) (st : State)
    (hne : ¬ (a1 = a2 ∧ w1 = w2)) :
    getShortcutLocal a2 w2 (setShortcutLocalOp a1 w1 h st) = getShortcutLocal a2 w2 st ∧
    getShortcutLocal a2 w2 (deleteShortcutLocalOp a1 w1 st) = getShortcutLocal a2 w2 st := by
  have hkey : localKey a2 w2 ≠ localKey a1 w1 := by
    intro hk
    obtain ⟨he, hw⟩ := localKey_inj hk
    exact hne ⟨he.symm, hw.symm⟩
  constructor
  · exact getShortcutLocal_setShortcutLocalOp_ne a1 a2 w1 w2 h st hkey
  · simp [getShortcutLocal, deleteShortcutLocalOp, getA_delA_ne _ _ _ hkey]

/-- Witness for C10 amended at the collision shape the claim suggested
(`"a-1"` with window 2 versus `"a"` with window 12): no cross-talk. -/
theorem c10_key_injective_witness :
    getShortcutLocal "a" 12
        (setShortcutLocalOp "a-1" 2 (NHandler.mk [] "x" false 0 0) State.init)
      = getShortcutLocal "a" 12 State.init ∧
    getShortcutLocal "a" 12 (deleteShortcutLocalOp "a-1" 2 State.init)
      = getShortcutLocal "a" 12 State.init :=
  c10_key_injective "a-1" "a" 2 12 (NHandler.mk [] "x" false 0 0) State.init
    (by decide)

/-- C7 counterexample: re-calling `registerOnAll` for the same
accelerator does *not* unsubscribe the old window-creation handler —
after two calls, two creation handlers for `"Control+A"` remain
subscribed, not at most one. -/
theorem c7_counterexample :
    (((registerOnAll "Control+A" 2 none
          (registerOnAll "Control+A" 1 none State.init).2).2).appListeners.filter
        (fun h => h.accelerator == "Control+A")).length = 2 := by
  rfl

/-- C7 amended: re-calling `registerOnAll` replaces the stored
OnAllEntry (lookups yield the new handler) but does not unsubscribe
the old creation handler — both stay subscribed; when a window is then
created, each runs `register` in subscription order and the later
registration overrides the earlier, so the new window still ends with
exactly one active handler, carrying the latest callback. -/
theorem c7_replaces_entry_keeps_listener (a : String) (mods nms : List String)
    (cb1 cb2 wid : Nat)
    (hp : splitAccel a = Except.ok (mods, nms)) :
    (registerOnAll a cb1 none State.init).1 = none ∧
    (registerOnAll a cb2 none (registerOnAll a cb1 none State.init).2).1 = none ∧
    ((registerOnAll a cb2 none
        (registerOnAll a cb1 none State.init).2).2).appListeners.length = 2 ∧
    (getShortcutOnAll a
        ((registerOnAll a cb2 none
          (registerOnAll a cb1 none State.init).2).2)).map OnAllHandler.callback
      = some cb2 ∧
    (windowCreated wid
        ((registerOnAll a cb2 none
          (registerOnAll a cb1 none State.init).2).2)).1 = none ∧
    (((windowCreated wid
        ((registerOnAll a cb2 none
          (registerOnAll a cb1 none State.init).2).2)).2.subs wid).map
        NHandler.callback) = [cb2] := by
  obtain ⟨stf, hwc, hmap⟩ := windowCreated_pair a mods nms cb1 cb2 0 1 wid
    ((registerOnAll a cb2 none (registerOnAll a cb1 none State.init).2).2) hp rfl rfl
  refine ⟨rfl, rfl, rfl, ?_, ?_, ?_⟩
  · show (getA a (setA a (OnAllHandler.mk a cb2 none 1)
        (setA a (OnAllHandler.mk a cb1 none 0)
          ([] : List (String × OnAllHandler))))).map OnAllHandler.callback = some cb2
    rw [getA_setA_self]
    rfl
  · rw [hwc]
  · rw [hwc]
    exact hmap

/-- Witness for C7 amended at `"Control+A"`, callbacks 1 then 2,
window 5. -/
theorem c7_replaces_entry_keeps_listener_witness :
    (registerOnAll "Control+A" 1 none State.init).1 = none ∧
    (registerOnAll "Control+A" 2 none
      (registerOnAll "Control+A" 1 none State.init).2).1 = none ∧
    ((registerOnAll "Control+A" 2 none
        (registerOnAll "Control+A" 1 none State.init).2).2).appListeners.length = 2 ∧
    (getShortcutOnAll "Control+A"
        ((registerOnAll "Control+A" 2 none
          (registerOnAll "Control+A" 1 none State.init).2).2)).map OnAllHandler.callback
      = some 2 ∧
    (windowCreated 5
        ((registerOnAll "Control+A" 2 none
          (registerOnAll "Control+A" 1 none State.init).2).2)).1 = none ∧
    (((windowCreated 5
        ((registerOnAll "Control+A" 2 none
          (registerOnAll "Control+A" 1 none State.init).2).2)).2.subs 5).map
        NHandler.callback) = [2] :=
  c7_replaces_entry_keeps_listener "Control+A" ["Control"] ["A"] 1 2 5 rfl

/-- C8 counterexample: with a malformed accelerator (`"A+B"`, two
non-modifier tokens) and no open window, `registerOnAll` raises no
error at all, yet it mutates the on-all registry store — contrary to
"raised synchronously and before any registry mutation". -/
theorem c8_counterexample :
    (registerOnAll "A+B" 0 none State.init).1 = none ∧
    (getShortcutOnAll "A+B" (registerOnAll "A+B" 0 none State.init).2).isSome = true := by
  exact ⟨rfl, rfl⟩

/-- C8 amended: only `register` raises `MalformedAccelerator`
synchronously and before any registry mutation (the state it throws
from is exactly the input state).  `registerOnAll` first subscribes
the creation handler and stores the OnAllEntry regardless of
well-formedness; it raises `MalformedAccelerator` only if at least one
window is open (from the per-window `register` call), i.e. after those
mutations, and raises nothing when no window is open.
`registerGlobal` performs no parsing at all: it never raises
`MalformedAccelerator` and proceeds to store and capture even a
malformed accelerator. -/
theorem c8_malformed_only_register_aborts_early (a : String) (cb wid : Nat)
    (opts : Option Bool) (st : State)
    (hp : splitAccel a = Except.error JsError.malformedAccelerator) :
    register a cb wid opts st = (some JsError.malformedAccelerator, st) ∧
    (getShortcutOnAll a (registerOnAll a cb opts st).2).isSome = true ∧
    (st.windows = [] → (registerOnAll a cb opts st).1 = none) ∧
    (st.windows ≠ [] →
      (registerOnAll a cb opts st).1 = some JsError.malformedAccelerator) ∧
    triggerGlobal (registerGlobal a cb st) a = some cb := by
  have hrw : ∀ (ws : List Nat) (stx : State),
      registerAllWindows a cb opts ws stx =
        (if ws.isEmpty then none else some JsError.malformedAccelerator, stx) := by
    intro ws stx
    cases ws with
    | nil => simp [registerAllWindows]
    | cons w ws' => simp [registerAllWindows, register, hp]
  refine ⟨by simp [register, hp], ?_, ?_, ?_, ?_⟩
  · simp [registerOnAll, hrw, getShortcutOnAll]
  · intro hw
    simp [registerOnAll, hrw, hw]
  · intro hw
    cases hww : st.windows with
    | nil => exact absurd hww hw
    | cons w ws' => simp [registerOnAll, hww, hrw]
  · simp [registerGlobal, registerGlobalRelease, unregisterGlobal,
      setShortcutGlobalOp, deleteShortcutGlobalOp, isRegisteredGlobal,
      getShortcutGlobal, triggerGlobal]

/-- Witness for C8 amended at `"A+B"` on the empty state. -/
theorem c8_malformed_only_register_aborts_early_witness :
    register "A+B" 0 0 none State.init = (some JsError.malformedAccelerator, State.init) ∧
    (getShortcutOnAll "A+B" (registerOnAll "A+B" 0 none State.init).2).isSome = true ∧
    (State.init.windows = [] → (registerOnAll "A+B" 0 none State.init).1 = none) ∧
    (State.init.windows ≠ [] →
      (registerOnAll "A+B" 0 none State.init).1 = some JsError.malformedAccelerator) ∧
    triggerGlobal (registerGlobal "A+B" 0 State.init) "A+B" = some 0 :=
  c8_malformed_only_register_aborts_early "A+B" 0 0 none State.init rfl

/-- C9: `registerGlobal(a, cb1)` then `registerGlobal(a, cb2)` leaves
exactly one OS-level binding and one GlobalEntry for `a`, both holding
`cb2`; the release phase of the second call leaves neither an OS
binding nor a GlobalEntry (previous registration fully released before
the new capture); triggering the binding invokes `cb2`, never `cb1`. -/
theorem c9_register_global_latest_wins (a : String) (cb1 cb2 : Nat) (st : State) :
    triggerGlobal (registerGlobal a cb2 (registerGlobal a cb1 st)) a = some cb2 ∧
    getShortcutGlobal a (registerGlobal a cb2 (registerGlobal a cb1 st)) = some cb2 ∧
    countA a (registerGlobal a cb2 (registerGlobal a cb1 st)).osBindings = 1 ∧
    countA a (registerGlobal a cb2 (registerGlobal a cb1 st)).globalShortcutMap = 1 ∧
    triggerGlobal (registerGlobalRelease a (registerGlobal a cb1 st)) a = none ∧
    getShortcutGlobal a (registerGlobalRelease a (registerGlobal a cb1 st)) = none ∧
    (cb1 ≠ cb2 →
      triggerGlobal (registerGlobal a cb2 (registerGlobal a cb1 st)) a ≠ some cb1) := by
  refine ⟨?_, ?_, ?_, ?_, ?_, ?_, ?_⟩ <;>
    simp [registerGlobal, registerGlobalRelease, unregisterGlobal,
      setShortcutGlobalOp, deleteShortcutGlobalOp, isRegisteredGlobal,
      getShortcutGlobal, triggerGlobal]
  intro hne h
  exact hne h.symm

/-- Witness for C9 at `"Control+A"`, callbacks 1 then 2, from the empty
state. -/
theorem c9_register_global_latest_wins_witness :
    triggerGlobal (registerGlobal "Control+A" 2 (registerGlobal "Control+A" 1 State.init))
      "Control+A" = some 2 ∧
    getShortcutGlobal "Control+A"
      (registerGlobal "Control+A" 2 (registerGlobal "Control+A" 1 State.init)) = some 2 ∧
    countA "Control+A"
      (registerGlobal "Control+A" 2 (registerGlobal "Control+A" 1 State.init)).osBindings
      = 1 ∧
    countA "Control+A"
      (registerGlobal "Control+A" 2
        (registerGlobal "Control+A" 1 State.init)).globalShortcutMap = 1 ∧
    triggerGlobal (registerGlobalRelease "Control+A" (registerGlobal "Control+A" 1 State.init))
      "Control+A" = none ∧
    getShortcutGlobal "Control+A"
      (registerGlobalRelease "Control+A" (registerGlobal "Control+A" 1 State.init)) = none ∧
    ((1 : Nat) ≠ 2 →
      triggerGlobal (registerGlobal "Control+A" 2 (registerGlobal "Control+A" 1 State.init))
        "Control+A" ≠ some 1) :=
  c9_register_global_latest_wins "Control+A" 1 2 State.init

end ElectronShortcuts
